import Mathlib

/-!
Verification of the hybrid ranking engine in `ranking.py` (class
`AdvancedRanking` of the LinkRanker repository).

Shallow-embedding conventions:
* Python dicts are association lists with unique keys; `d.get(k, v)` is
  `(l.lookup k).getD v`, while `d[k]` is a `lookup` that yields
  `Except.error PyErr.keyError` when the key is absent.
* float64 values are idealised as exact rationals (inputs, masks,
  denominators) and reals (once `math.log` enters); the reachable NaN of
  `numpy` is modelled explicitly by the type `NpV`.
* The inner per-document statistics dict `{'frequency': n}` is modelled by
  its frequency field: `calculate_tf` reads `.get('frequency', 0)`, so a
  missing field and a missing document both yield 0, exactly as the source.
* External collaborators (spacy/wordnet query expansion, the scipy ARPACK
  eigensolver) enter as explicit parameters.
-/

/-- Python exceptions that the embedded code can raise. -/
inductive PyErr where
  | keyError : PyErr
  | valueError : PyErr
  | typeError : PyErr
deriving DecidableEq, Repr

/-- A numpy float64 value: either NaN or a finite value (idealised as an
element of `α`, i.e. `ℚ` or `ℝ`). IEEE infinities are not needed: the only
place the source can produce one (`x/0.0` with `x ≠ 0`) immediately
multiplies it by the 0.0 mask, and `inf * 0.0 = NaN` in IEEE, so the
embedding collapses that case into `nan` at the division (see
`bm25_term`). -/
inductive NpV (α : Type) where
  | nan : NpV α
  | val : α → NpV α
deriving DecidableEq, Repr

/-- IEEE float64 addition restricted to NaN/finite: NaN absorbs. -/
def NpV.add : NpV ℝ → NpV ℝ → NpV ℝ
  | NpV.val a, NpV.val b => NpV.val (a + b)
  | _, _ => NpV.nan

/-- Embedding of `np.sum` over a float64 vector: left fold of IEEE
addition starting from 0.0; any NaN element makes the sum NaN. -/
def npSum (l : List (NpV ℝ)) : NpV ℝ := l.foldl NpV.add (NpV.val 0)

/-- Comparison of two scores as Python compares floats: defined (and equal
to the real comparison) only between non-NaN values; any comparison
involving NaN is false. -/
def NpV.le : NpV ℝ → NpV ℝ → Prop
  | NpV.val x, NpV.val y => x ≤ y
  | _, _ => False

/-- The point-in-time index snapshot the engine reads
(`self.inverted_index` and `self.doc_lengths` from
`get_inverted_index_and_doc_lengths()`, and `self.avg_doc_length` from
`calculate_avg_doc_length()`). Terms are strings, document identifiers are
integers, term frequencies and document lengths are non-negative
integers. -/
structure Snapshot where
  invertedIndex : List (String × List (Int × Nat))
  docLengths : List (Int × Nat)
  avgDocLength : ℚ

/-- The tunables accepted by `AdvancedRanking.__init__` (the unused
`damping_factor` is omitted: it is stored but never read by any method). -/
structure Params where
  k1 : ℚ
  b : ℚ
  k1Plus : ℚ
  bPlus : ℚ
  contentWeight : ℚ
  pagerankWeight : ℚ

/-- Embedding of `calculate_tf`:
`self.inverted_index.get(term, {}).get(doc_id, {}).get('frequency', 0)`. -/
def calculate_tf (S : Snapshot) (term : String) (doc_id : Int) : Nat :=
  (((S.invertedIndex.lookup term).getD []).lookup doc_id).getD 0

/-- Embedding of `calculate_idf`:
`math.log((num_docs - num_docs_with_term + 0.5) / (num_docs_with_term + 0.5) + 1.0)`
with `num_docs_with_term = len(self.inverted_index.get(term, {}))` and
`num_docs = len(self.doc_lengths)`. `math.log` raises on a non-positive
argument, but the argument here is always positive (see `idf_arg_pos`), so
the total `Real.log` model is faithful. -/
noncomputable def calculate_idf (S : Snapshot) (term : String) : ℝ :=
  let n : Nat := ((S.invertedIndex.lookup term).getD []).length
  let N : Nat := S.docLengths.length
  Real.log (((N : ℝ) - (n : ℝ) + 1/2) / ((n : ℝ) + 1/2) + 1)

/-- One summand of
`np.sum(idfs * (numerators / denominators * non_zero_denominators))`.
The source divides first and multiplies by the boolean mask afterwards;
when the denominator is 0.0 the quotient is NaN (for a 0.0 numerator) or
±inf (otherwise), and both `NaN * 0.0` and `inf * 0.0` are NaN, so the
masked summand is NaN — the mask never rescues it. The embedding collapses
the intermediate ±inf/NaN into `nan` at the division. -/
noncomputable def bm25_term (k b avg : ℚ) (idf : ℝ) (tf len : ℚ) : NpV ℝ :=
  let numerator := tf * (k + 1)
  let denominator := tf + k * (1 - b + b * (len / (avg + 1/1000000)))
  if denominator = 0 then NpV.nan
  else NpV.val (idf * ((numerator / denominator : ℚ) : ℝ))

/-- Embedding of `calculate_bm25_score`. Evaluation order of the source:
first `np.vectorize(self.calculate_idf)(query_terms)`, which raises
`ValueError` on a size-0 input (`np.vectorize` cannot be called on size-0
inputs unless `otypes` is set); then the total `calculate_tf` calls; then
`self.doc_lengths[doc_id]`, which raises `KeyError` for an unknown
document; then the vectorised masked formula. -/
noncomputable def calculate_bm25_score (P : Params) (S : Snapshot)
    (query_terms : List String) (doc_id : Int) : Except PyErr (NpV ℝ) :=
  if query_terms = [] then Except.error PyErr.valueError
  else
    match S.docLengths.lookup doc_id with
    | none => Except.error PyErr.keyError
    | some len =>
        Except.ok (npSum (query_terms.map fun t =>
          bm25_term P.k1 P.b S.avgDocLength (calculate_idf S t)
            ((calculate_tf S t doc_id : ℚ)) ((len : ℚ))))

/-- Embedding of `calculate_bm25_plus_score`: identical to
`calculate_bm25_score` but with the tunables `k1_plus`, `b_plus`. -/
noncomputable def calculate_bm25_plus_score (P : Params) (S : Snapshot)
    (query_terms : List String) (doc_id : Int) : Except PyErr (NpV ℝ) :=
  if query_terms = [] then Except.error PyErr.valueError
  else
    match S.docLengths.lookup doc_id with
    | none => Except.error PyErr.keyError
    | some len =>
        Except.ok (npSum (query_terms.map fun t =>
          bm25_term P.k1Plus P.bPlus S.avgDocLength (calculate_idf S t)
            ((calculate_tf S t doc_id : ℚ)) ((len : ℚ))))

/-- A node of the `networkx.DiGraph` built by
`calculate_page_rank_scores_scipy`. The call
`graph.add_nodes_from(self.doc_lengths.keys())` adds integer document
identifiers, but the loop `for doc_id, links in self.inverted_index.items()`
iterates over the *term → postings* dict, so `graph.add_edge(doc_id, link_id)`
adds string term nodes as edge sources and integer document nodes as edge
targets: the node set mixes both Python types. -/
inductive PyNode where
  | i : Int → PyNode
  | s : String → PyNode
deriving DecidableEq, Repr

/-- The edges added by the loop: one `(term, document)` pair per posting. -/
def prEdges (S : Snapshot) : List (PyNode × PyNode) :=
  S.invertedIndex.flatMap fun p => p.2.map fun q => (PyNode.s p.1, PyNode.i q.1)

/-- The nodes of the graph: all `doc_lengths` keys plus both endpoints of
every edge (duplicates are harmless: only emptiness, membership and the
all-same-type test below are ever inspected, and the one place the node
list is ordered deduplicates first). -/
def prNodes (S : Snapshot) : List PyNode :=
  S.docLengths.map (fun p => PyNode.i p.1) ++ (prEdges S).flatMap fun e => [e.1, e.2]

/-- Test for whether `sorted(graph.nodes())` succeeds. In Python 3 it
succeeds only when all nodes are mutually comparable, i.e. all ints or all
strings; on a mixed list the adjacent comparisons of the sort reach an
int/str pair and raise
`TypeError: '<' not supported between instances of 'str' and 'int'`. -/
def nodesSortable (ns : List PyNode) : Bool :=
  ns.all (fun n => match n with | PyNode.i _ => true | PyNode.s _ => false) ||
  ns.all (fun n => match n with | PyNode.i _ => false | PyNode.s _ => true)

/-- Order used by Python to sort a list of mutually comparable nodes (the
mixed int/str case never reaches a completed sort, see `nodesSortable`). -/
def pyNodeLeb : PyNode → PyNode → Bool
  | PyNode.i a, PyNode.i b => a ≤ b
  | PyNode.s a, PyNode.s b => decide (a ≤ b)
  | PyNode.i _, PyNode.s _ => true
  | PyNode.s _, PyNode.i _ => false

/-- Embedding of `calculate_page_rank_scores_scipy`. The call
`eigs(matrix.T, k=1, which='LR')` is an external solver, abstracted by
`oracle`: `none` models a raising solver (non-convergence etc.), `some v`
models a returned dominant eigenvector, restricted to real entries. The
post-processing (`scores /= scores.sum()`, `.real`, zip with the sorted
node list) is embedded. The whole body runs inside a blanket
`try/except Exception`, so every internal fault — a raising solver, and
the `TypeError` raised by `sorted(graph.nodes())` on a mixed int/str node
set — returns the empty dict; `pr_scipy_always_empty` below shows the
eigen branch is in fact unreachable. -/
def calculate_page_rank_scores_scipy (S : Snapshot) (oracle : Option (List ℚ)) :
    List (PyNode × ℚ) :=
  if S.invertedIndex.isEmpty then []
  else
    let ns := prNodes S
    let es := prEdges S
    if ns.isEmpty || es.isEmpty then []
    else
      if nodesSortable ns then
        match oracle with
        | none => []
        | some v =>
            let normalized := v.map (fun x => x / v.sum)
            (List.insertionSort (fun a b => pyNodeLeb a b = true) ns.dedup).zip normalized
      else []

/-- Embedding of `self.page_rank_scores.get(doc_id, 0)`: the cached dict
is keyed by graph nodes; `rank_documents` looks documents up by their
integer identifier. -/
def prLookup (m : List (PyNode × ℚ)) (doc_id : Int) : ℚ :=
  ((m.lookup (PyNode.i doc_id)).getD 0)

/-- Embedding of `combine_scores`:
`(self.content_weight * content_score) + (self.pagerank_weight * pagerank_score)`.
A NaN BM25 score propagates through the float arithmetic. -/
def combine_scores (P : Params) (content_score : NpV ℝ) (pagerank_score : ℚ) : NpV ℝ :=
  match content_score with
  | NpV.nan => NpV.nan
  | NpV.val x =>
      NpV.val ((P.contentWeight : ℝ) * x + (P.pagerankWeight : ℝ) * (pagerank_score : ℝ))

/-- The value one scoring task contributes for a document:
`self.combine_scores(future.result(), self.page_rank_scores.get(doc_id, 0))`.
An exception inside the task is re-raised by `future.result()`. -/
noncomputable def docCombined (P : Params) (S : Snapshot) (prMap : List (PyNode × ℚ))
    (query_terms : List String) (d : Int) : Except PyErr (NpV ℝ) :=
  (calculate_bm25_plus_score P S query_terms d).map fun bm =>
    combine_scores P bm (prLookup prMap d)

/-- The `for future in as_completed(futures)` collection loop, processing
documents in completion order and appending `(doc_id, combined_score)`;
the first re-raised task exception aborts the loop (and with it the whole
ranking call). -/
noncomputable def collectScores (P : Params) (S : Snapshot) (prMap : List (PyNode × ℚ))
    (query_terms : List String) : List Int → Except PyErr (List (Int × NpV ℝ))
  | [] => Except.ok []
  | d :: ds =>
    match docCombined P S prMap query_terms d with
    | Except.error e => Except.error e
    | Except.ok sc =>
        (collectScores P S prMap query_terms ds).map fun l => (d, sc) :: l

/-- Sort key of `sorted(scores, key=lambda x: x[1], reverse=True)`. NaN
keys make Python's comparison-based sort implementation-defined (every
NaN comparison is false), so the embedding assigns NaN an arbitrary key;
every ordering theorem below either assumes or exhibits NaN-free
scores. -/
noncomputable def npKey : NpV ℝ → ℝ
  | NpV.nan => 0
  | NpV.val x => x

/-- The non-strict descending-score order used by the final sort. CPython
with `reverse=True` performs a stable descending sort: an element goes
before another exactly when its key is strictly larger, or when the keys
tie and it was collected earlier — which is precisely insertion sort with
this relation. -/
def scoreGe (a b : Int × NpV ℝ) : Prop := npKey b.2 ≤ npKey a.2

noncomputable instance : DecidableRel scoreGe :=
  fun a b => inferInstanceAs (Decidable (npKey b.2 ≤ npKey a.2))

instance : IsTotal (Int × NpV ℝ) scoreGe :=
  ⟨fun a b => (le_total (npKey b.2) (npKey a.2)).imp id id⟩

instance : IsTrans (Int × NpV ℝ) scoreGe :=
  ⟨fun _ _ _ hab hbc => le_trans hbc hab⟩

/-- The strict descending-score order (used to show that a ranking with
pairwise-distinct scores is uniquely determined). -/
def scoreGt (a b : Int × NpV ℝ) : Prop := npKey b.2 < npKey a.2

instance : IsAntisymm (Int × NpV ℝ) scoreGt :=
  ⟨fun _ _ h1 h2 => absurd h2 (lt_asymm h1)⟩

/-- Embedding of `rank_documents`. The expanded query terms
(`query_terms = self.expand_query(query)`) come from the external
spacy/wordnet collaborator and are passed in directly. `completion_order`
is the order in which `as_completed` yields the submitted futures: a
scheduler-chosen permutation of `list(self.doc_lengths.keys())`. `prMap`
is the cached `self.page_rank_scores`. -/
noncomputable def rank_documents (P : Params) (S : Snapshot) (prMap : List (PyNode × ℚ))
    (query_terms : List String) (completion_order : List Int) :
    Except PyErr (List (Int × NpV ℝ)) :=
  (collectScores P S prMap query_terms completion_order).map
    (List.insertionSort scoreGe)

/-- Total description of one task's combined score, used to describe the
content of a successful collection loop. -/
noncomputable def docCombinedValue (P : Params) (S : Snapshot) (prMap : List (PyNode × ℚ))
    (query_terms : List String) (d : Int) : NpV ℝ :=
  match docCombined P S prMap query_terms d with
  | Except.ok sc => sc
  | Except.error _ => NpV.nan

/-- Replacement of one term's stored frequency for one document, leaving
every key (and hence every dict size) unchanged: the "two index snapshots
differ only in that a term's frequency for that document is larger"
relation of the spec, expressed constructively. -/
def updateFreq (idx : List (String × List (Int × Nat))) (t0 : String) (d : Int)
    (f : Nat) : List (String × List (Int × Nat)) :=
  idx.map fun p =>
    (p.1, if p.1 = t0 then p.2.map (fun q => (q.1, if q.1 = d then f else q.2)) else p.2)

/-- Comparison of the outcomes of two scoring calls, as the spec's
"score under the second snapshot is greater or equal" reads on the code:
both calls succeed with non-NaN scores and the scores compare. -/
def exceptScoreLe : Except PyErr (NpV ℝ) → Except PyErr (NpV ℝ) → Prop
  | Except.ok (NpV.val x), Except.ok (NpV.val y) => x ≤ y
  | _, _ => False

/-- The Python-default tunables:
`k1=1.5, b=0.75, k1_plus=1.8, b_plus=0.5, content_weight=0.7, pagerank_weight=0.3`. -/
def Pdef : Params := ⟨3/2, 3/4, 9/5, 1/2, 7/10, 3/10⟩

/-- A two-document snapshot with an empty inverted index: every document
scores 0 for every query, giving a tie. The average length is chosen so
that `avg_doc_length + 1e-6 = 1`. -/
def S2docs : Snapshot := ⟨[], [(1, 5), (2, 5)], 999999/1000000⟩

/-! Helper lemmas. -/

/-- The log argument of `calculate_idf` simplifies to `(N + 1) / (n + 1/2)`. -/
theorem idf_arg_eq (N n : Nat) :
    ((N : ℝ) - (n : ℝ) + 1/2) / ((n : ℝ) + 1/2) + 1 = ((N : ℝ) + 1) / ((n : ℝ) + 1/2) := by
  have hn : ((n : ℝ) + 1/2) ≠ 0 := by positivity
  field_simp
  ring

/-- The argument of `math.log` inside `calculate_idf` is always positive,
so the source never hits a `math domain error`. -/
theorem idf_arg_pos (N n : Nat) :
    0 < ((N : ℝ) - (n : ℝ) + 1/2) / ((n : ℝ) + 1/2) + 1 := by
  rw [idf_arg_eq]
  positivity

/-- Every edge of the reference graph pairs a string term node with an
integer document node. -/
theorem prEdges_shape (S : Snapshot) (e : PyNode × PyNode) (he : e ∈ prEdges S) :
    ∃ t d, e = (PyNode.s t, PyNode.i d) := by
  simp only [prEdges, List.mem_flatMap, List.mem_map] at he
  obtain ⟨p, _, q, _, rfl⟩ := he
  exact ⟨p.1, q.1, rfl⟩

/-- Both endpoints of every edge are nodes. -/
theorem prEdges_mem_nodes (S : Snapshot) (e : PyNode × PyNode) (he : e ∈ prEdges S) :
    e.1 ∈ prNodes S ∧ e.2 ∈ prNodes S := by
  constructor <;>
  · rw [prNodes, List.mem_append]
    right
    rw [List.mem_flatMap]
    exact ⟨e, he, by simp⟩

/-- Whatever the snapshot and whatever the eigensolver would return,
`calculate_page_rank_scores_scipy` returns the empty mapping: every branch
that survives the emptiness checks has at least one mixed string/int edge,
so `sorted(graph.nodes())` raises `TypeError` and the `except` clause
returns `{}` — the eigen computation is unreachable. -/
theorem pr_scipy_always_empty (S : Snapshot) (oracle : Option (List ℚ)) :
    calculate_page_rank_scores_scipy S oracle = [] := by
  unfold calculate_page_rank_scores_scipy
  by_cases h1 : S.invertedIndex.isEmpty
  · simp [h1]
  · simp only [h1, Bool.false_eq_true, if_false]
    cases h2 : prEdges S with
    | nil => simp [h2]
    | cons e tl =>
        have hmem : e ∈ prEdges S := by rw [h2]; exact List.mem_cons_self e tl
        obtain ⟨t, d, rfl⟩ := prEdges_shape S e hmem
        obtain ⟨hs, hi⟩ := prEdges_mem_nodes S _ hmem
        have hns : (prNodes S).isEmpty = false := by
          cases hn : (prNodes S).isEmpty
          · rfl
          · exfalso
            rw [List.isEmpty_iff] at hn
            rw [hn] at hs
            cases hs
        have hsort : nodesSortable (prNodes S) = false := by
          rw [nodesSortable, Bool.or_eq_false_iff]
          constructor
          · rw [List.all_eq_false]
            exact ⟨PyNode.s t, hs, by simp⟩
          · rw [List.all_eq_false]
            exact ⟨PyNode.i d, hi, by simp⟩
        simp [hns, hsort]

/-! Claims about the authority scorer. -/

/-- C5 (code bug). At the failing input — a non-empty inverted index
`{"cat": {1: {'frequency': 2}}}` with documents `{1: 10, 2: 8}` — the
graph built by `calculate_page_rank_scores_scipy` mixes the string node
"cat" with integer document nodes, `sorted(graph.nodes())` raises
`TypeError`, the blanket `except` swallows it, and the function returns
the empty mapping no matter what the eigensolver would have produced:
no authority mapping with non-negative values summing to 1 is ever
computed. -/
theorem spec_C5_authority_never_computed (oracle : Option (List ℚ)) :
    calculate_page_rank_scores_scipy
      ⟨[("cat", [(1, 2)])], [(1, 10), (2, 8)], 10⟩ oracle = [] :=
  pr_scipy_always_empty _ oracle

/-- C6. `calculate_page_rank_scores_scipy` never propagates an exception
(the embedded function is total: the blanket `try/except Exception`
converts every internal fault into a return): with an empty inverted
index, an empty node set, an empty edge set, or a failing eigensolver it
returns the empty mapping; the authority of every document read from its
result through `self.page_rank_scores.get(doc_id, 0)` is then 0, and
`rank_documents` run against its output is the same as `rank_documents`
run with an all-zero authority table. -/
theorem spec_C6_pagerank_degrades_gracefully (S : Snapshot) (oracle : Option (List ℚ)) :
    (S.invertedIndex = [] → calculate_page_rank_scores_scipy S oracle = []) ∧
    (prNodes S = [] → calculate_page_rank_scores_scipy S oracle = []) ∧
    (prEdges S = [] → calculate_page_rank_scores_scipy S oracle = []) ∧
    (oracle = none → calculate_page_rank_scores_scipy S oracle = []) ∧
    (∀ d : Int, prLookup (calculate_page_rank_scores_scipy S oracle) d = 0) ∧
    (∀ (P : Params) (query_terms : List String) (completion_order : List Int),
      rank_documents P S (calculate_page_rank_scores_scipy S oracle)
          query_terms completion_order =
        rank_documents P S [] query_terms completion_order) := by
  rw [pr_scipy_always_empty S oracle]
  exact ⟨fun _ => rfl, fun _ => rfl, fun _ => rfl, fun _ => rfl,
    fun _ => rfl, fun _ _ _ => rfl⟩

/-- Witness for C6 at a concrete degenerate input (empty index, failing
solver). -/
theorem spec_C6_witness :
    calculate_page_rank_scores_scipy ⟨[], [(1, 10)], 10⟩ none = [] :=
  (spec_C6_pagerank_degrades_gracefully ⟨[], [(1, 10)], 10⟩ none).1 rfl

/-! Claims about the inverse document frequency. -/

/-- C7. `calculate_idf` returns exactly
`ln((N - n_t + 0.5) / (n_t + 0.5) + 1.0)` with `N` the number of documents
in `doc_lengths` and `n_t` the number of documents listed for the term;
under the invariant `n_t ≤ N` the value is non-negative; and the log
argument is positive (in particular the value is a defined, finite real)
for every `n_t`, including `n_t = 0`. -/
theorem spec_C7_idf_formula (S : Snapshot) (t : String) :
    calculate_idf S t =
      Real.log (((S.docLengths.length : ℝ) -
          ((((S.invertedIndex.lookup t).getD []).length : Nat) : ℝ) + 1/2) /
        (((((S.invertedIndex.lookup t).getD []).length : Nat) : ℝ) + 1/2) + 1) ∧
    (((S.invertedIndex.lookup t).getD []).length ≤ S.docLengths.length →
      0 ≤ calculate_idf S t) ∧
    0 < ((S.docLengths.length : ℝ) -
          ((((S.invertedIndex.lookup t).getD []).length : Nat) : ℝ) + 1/2) /
        (((((S.invertedIndex.lookup t).getD []).length : Nat) : ℝ) + 1/2) + 1 := by
  refine ⟨rfl, ?_, idf_arg_pos _ _⟩
  intro h
  unfold calculate_idf
  apply Real.log_nonneg
  rw [idf_arg_eq, one_le_div (by positivity)]
  have hc : ((((S.invertedIndex.lookup t).getD []).length : Nat) : ℝ) ≤
      ((S.docLengths.length : Nat) : ℝ) := Nat.cast_le.mpr h
  linarith

/-- Witness for C7: on the snapshot `{"cat": {1,2 ∈ docs}}` the invariant
holds and the idf value is non-negative. -/
theorem spec_C7_witness :
    0 ≤ calculate_idf ⟨[("cat", [(1, 2)])], [(1, 10), (2, 8)], 10⟩ "cat" :=
  (spec_C7_idf_formula ⟨[("cat", [(1, 2)])], [(1, 10), (2, 8)], 10⟩ "cat").2.1
    (by decide)

/-- C9. Holding the document table (hence `N`) fixed, `calculate_idf` is
strictly decreasing in the number of documents listed for the term: if one
index lists strictly fewer documents for `t` than another (both counts at
most `N`), the idf under the larger count is strictly smaller. -/
theorem spec_C9_idf_strictly_decreasing
    (idx1 idx2 : List (String × List (Int × Nat))) (dl : List (Int × Nat))
    (avg : ℚ) (t : String)
    (h12 : ((idx1.lookup t).getD []).length < ((idx2.lookup t).getD []).length)
    (_h2N : ((idx2.lookup t).getD []).length ≤ dl.length) :
    calculate_idf ⟨idx2, dl, avg⟩ t < calculate_idf ⟨idx1, dl, avg⟩ t := by
  unfold calculate_idf
  dsimp only
  rw [idf_arg_eq, idf_arg_eq]
  apply Real.log_lt_log
  · positivity
  · apply div_lt_div_of_pos_left (by positivity) (by positivity)
    have hc : ((((idx1.lookup t).getD []).length : Nat) : ℝ) <
        ((((idx2.lookup t).getD []).length : Nat) : ℝ) := Nat.cast_lt.mpr h12
    linarith

/-- Witness for C9: adding a second posting for "t" strictly lowers its
idf. -/
theorem spec_C9_witness :
    calculate_idf ⟨[("t", [(1, 1), (2, 1)])], [(1, 5), (2, 5)], 5⟩ "t" <
      calculate_idf ⟨[("t", [(1, 1)])], [(1, 5), (2, 5)], 5⟩ "t" :=
  spec_C9_idf_strictly_decreasing [("t", [(1, 1)])] [("t", [(1, 1), (2, 1)])]
    [(1, 5), (2, 5)] 5 "t" (by decide) (by decide)

/-! Claims about the BM25 scorers. -/

/-- C3 (code bug). At a reachable zero-denominator input (constructor
tunables `b = 1` and `b_plus = 1`, a document of length 0, a query term
with frequency 0 there), the masked division of both scorers yields NaN,
not 0: `numerators / denominators` is `0.0/0.0 = NaN` and the subsequent
multiplication by the 0.0 mask leaves NaN, which poisons `np.sum`. The
call raises no fault (`Except.ok`), but the returned score is the
undefined value NaN, contradicting the claim that the term contributes
exactly 0. -/
theorem spec_C3_zero_denominator_poisons_score :
    calculate_bm25_score ⟨3/2, 1, 9/5, 1, 7/10, 3/10⟩ ⟨[], [(1, 0)], 10⟩ ["t"] 1 =
      Except.ok NpV.nan ∧
    calculate_bm25_plus_score ⟨3/2, 1, 9/5, 1, 7/10, 3/10⟩ ⟨[], [(1, 0)], 10⟩ ["t"] 1 =
      Except.ok NpV.nan := by
  constructor
  · unfold calculate_bm25_score
    norm_num [calculate_tf, npSum, bm25_term, List.lookup, NpV.add]
  · unfold calculate_bm25_plus_score
    norm_num [calculate_tf, npSum, bm25_term, List.lookup, NpV.add]

/-- C10 (amended): for every non-empty query-term sequence, calling either
scorer with a document identifier absent from `doc_lengths` raises
`KeyError` (the `self.doc_lengths[doc_id]` lookup), rather than returning
0 — even when the term statistics exist in the inverted index. -/
theorem spec_C10_missing_doc_raises_keyerror (P : Params) (S : Snapshot)
    (query_terms : List String) (doc_id : Int)
    (hq : query_terms ≠ [])
    (hd : S.docLengths.lookup doc_id = none) :
    calculate_bm25_score P S query_terms doc_id = Except.error PyErr.keyError ∧
    calculate_bm25_plus_score P S query_terms doc_id = Except.error PyErr.keyError := by
  constructor
  · unfold calculate_bm25_score
    rw [if_neg hq, hd]
  · unfold calculate_bm25_plus_score
    rw [if_neg hq, hd]

/-- Witness for C10: document 99 is not in `doc_lengths` of `S2docs`, and
scoring it with the one-term query raises `KeyError`. -/
theorem spec_C10_witness :
    calculate_bm25_score Pdef S2docs ["t"] 99 = Except.error PyErr.keyError ∧
    calculate_bm25_plus_score Pdef S2docs ["t"] 99 = Except.error PyErr.keyError :=
  spec_C10_missing_doc_raises_keyerror Pdef S2docs ["t"] 99 (by decide) (by decide)

/-- Counterexample for C10 as stated ("for every query-term sequence"):
with the empty query-term sequence the raised fault is the `ValueError`
from `np.vectorize` on a size-0 input, which precedes the document lookup,
not a `KeyError`. -/
theorem spec_C10_counterexample :
    calculate_bm25_score Pdef S2docs [] 99 = Except.error PyErr.valueError ∧
    (Except.error PyErr.valueError : Except PyErr (NpV ℝ)) ≠
      Except.error PyErr.keyError := by
  refine ⟨rfl, ?_⟩
  simp

/-! Helper lemmas about `updateFreq` and the summed scores, used for the
monotonicity claim. -/

/-- Unfolding equation of `updateFreq` on a cons cell. -/
theorem updateFreq_cons (k : String) (ps : List (Int × Nat))
    (tl : List (String × List (Int × Nat))) (t0 : String) (d : Int) (f : Nat) :
    updateFreq ((k, ps) :: tl) t0 d f =
      (k, if k = t0 then ps.map (fun q => (q.1, if q.1 = d then f else q.2)) else ps) ::
        updateFreq tl t0 d f := rfl

/-- Looking a term up after `updateFreq`: the updated term's postings are
mapped, every other term is untouched. -/
theorem updateFreq_lookup (idx : List (String × List (Int × Nat))) (t0 : String)
    (d : Int) (f : Nat) (t : String) :
    (updateFreq idx t0 d f).lookup t =
      if t = t0 then
        (idx.lookup t).map (fun ps => ps.map fun q => (q.1, if q.1 = d then f else q.2))
      else idx.lookup t := by
  induction idx with
  | nil =>
      by_cases ht : t = t0 <;> simp [updateFreq, List.lookup, ht]
  | cons p tl ih =>
    obtain ⟨k, ps⟩ := p
    by_cases ht : t = k
    · subst ht
      by_cases hp : t = t0
      · simp [updateFreq_cons, List.lookup_cons, hp, ih]
      · simp [updateFreq_cons, List.lookup_cons, hp, ih]
    · by_cases hp : k = t0
      · have ht0 : ¬ t = t0 := fun hcon => ht (hcon.trans hp.symm)
        simp [updateFreq_cons, List.lookup_cons, beq_false_of_ne ht,
          beq_false_of_ne ht0, hp, ht0, ih]
      · simp [updateFreq_cons, List.lookup_cons, beq_false_of_ne ht, hp, ih]

/-- Looking a document up in mapped postings: the updated document's
frequency is replaced, every other document is untouched. -/
theorem postings_update_lookup (ps : List (Int × Nat)) (d : Int) (f : Nat) (e : Int) :
    (ps.map fun q => (q.1, if q.1 = d then f else q.2)).lookup e =
      if e = d then (ps.lookup d).map (fun _ => f) else ps.lookup e := by
  induction ps with
  | nil =>
      by_cases he : e = d <;> simp [List.lookup, he]
  | cons q tl ih =>
    obtain ⟨k, v⟩ := q
    by_cases he : e = k
    · subst he
      by_cases hk : e = d
      · simp [List.map_cons, List.lookup_cons, hk, ih]
      · simp [List.map_cons, List.lookup_cons, hk, ih]
    · by_cases hk : e = d
      · subst hk
        simp [List.map_cons, List.lookup_cons, beq_false_of_ne he,
          (show ¬ k = e from fun hcon => he hcon.symm), ih]
      · simp [List.map_cons, List.lookup_cons, beq_false_of_ne he, hk, ih]

/-- Changing one stored frequency does not change any postings-list
length, hence does not change any term's idf. -/
theorem updateFreq_idf (S : Snapshot) (t0 : String) (d : Int) (f : Nat) (t : String) :
    calculate_idf ⟨updateFreq S.invertedIndex t0 d f, S.docLengths, S.avgDocLength⟩ t =
      calculate_idf S t := by
  unfold calculate_idf
  dsimp only
  rw [updateFreq_lookup]
  by_cases ht : t = t0
  · rw [if_pos ht]
    cases h : S.invertedIndex.lookup t <;> simp [h]
  · rw [if_neg ht]

/-- The term frequency of every term other than the updated one is
unchanged. -/
theorem updateFreq_tf_other (S : Snapshot) (t0 : String) (d : Int) (f : Nat)
    (t : String) (ht : ¬ t = t0) :
    calculate_tf ⟨updateFreq S.invertedIndex t0 d f, S.docLengths, S.avgDocLength⟩ t d =
      calculate_tf S t d := by
  unfold calculate_tf
  dsimp only
  rw [updateFreq_lookup, if_neg ht]

/-- The updated term's frequency for the updated document becomes the new
frequency when the document is listed, and stays 0 otherwise. -/
theorem updateFreq_tf_self (S : Snapshot) (t0 : String) (d : Int) (f2 : Nat) :
    calculate_tf ⟨updateFreq S.invertedIndex t0 d f2, S.docLengths, S.avgDocLength⟩ t0 d =
      if (((S.invertedIndex.lookup t0).getD []).lookup d).isSome then f2 else 0 := by
  unfold calculate_tf
  dsimp only
  rw [updateFreq_lookup, if_pos rfl]
  cases h : S.invertedIndex.lookup t0 with
  | none => simp
  | some ps =>
      simp only [Option.map_some', Option.getD_some]
      rw [postings_update_lookup, if_pos rfl]
      obtain h2 | ⟨v, h2⟩ := (List.lookup d ps).eq_none_or_eq_some
      · simp [h2]
      · simp [h2]

/-- The updated term's frequency for the updated document does not
decrease when the new frequency dominates the old one. -/
theorem updateFreq_tf_self_le (S : Snapshot) (t0 : String) (d : Int) (f2 : Nat)
    (hf : calculate_tf S t0 d ≤ f2) :
    calculate_tf S t0 d ≤
      calculate_tf ⟨updateFreq S.invertedIndex t0 d f2, S.docLengths, S.avgDocLength⟩ t0 d := by
  rw [updateFreq_tf_self]
  have hunf : calculate_tf S t0 d =
      (((S.invertedIndex.lookup t0).getD []).lookup d).getD 0 := rfl
  cases hd : ((S.invertedIndex.lookup t0).getD []).lookup d with
  | none => rw [hunf, hd]; simp
  | some v =>
      rw [hunf, hd] at hf ⊢
      simpa using hf

/-- Folding IEEE addition over a NaN-free list is the real sum. -/
theorem npSum_foldl_val {α : Type} (l : List α) (g : α → ℝ) (f : α → NpV ℝ)
    (h : ∀ x ∈ l, f x = NpV.val (g x)) (a : ℝ) :
    (l.map f).foldl NpV.add (NpV.val a) = NpV.val (a + (l.map g).sum) := by
  induction l generalizing a with
  | nil => simp
  | cons x xs ih =>
      have hx := h x (List.mem_cons_self x xs)
      simp only [List.map_cons, List.foldl_cons, hx, NpV.add, List.sum_cons]
      rw [ih (fun y hy => h y (List.mem_cons_of_mem x hy)) (a + g x), add_assoc]

/-- `np.sum` over a NaN-free vector is the real sum. -/
theorem npSum_map_val {α : Type} (l : List α) (g : α → ℝ) (f : α → NpV ℝ)
    (h : ∀ x ∈ l, f x = NpV.val (g x)) :
    npSum (l.map f) = NpV.val ((l.map g).sum) := by
  unfold npSum
  rw [npSum_foldl_val l g f h 0, zero_add]

/-- A summand with a non-zero denominator is a plain value. -/
theorem bm25_term_val (k b avg : ℚ) (idf : ℝ) (tf len : ℚ)
    (h : tf + k * (1 - b + b * (len / (avg + 1/1000000))) ≠ 0) :
    bm25_term k b avg idf tf len =
      NpV.val (idf *
        ((tf * (k + 1) / (tf + k * (1 - b + b * (len / (avg + 1/1000000)))) : ℚ) : ℝ)) := by
  simp only [bm25_term]
  rw [if_neg h]

/-- The BM25 term-frequency saturation factor is monotone in the raw
frequency when the length-normalisation part of the denominator is
positive. -/
theorem bm25_frac_mono (k K x y : ℚ) (hk : 0 ≤ k) (hK : 0 < K) (hx : 0 ≤ x)
    (hxy : x ≤ y) : x * (k + 1) / (x + K) ≤ y * (k + 1) / (y + K) := by
  rw [div_le_div_iff₀ (by linarith) (by linarith)]
  nlinarith [mul_nonneg (mul_nonneg (by linarith : (0:ℚ) ≤ k + 1) hK.le)
    (by linarith : (0:ℚ) ≤ y - x)]

/-- Non-negativity of `calculate_idf` under the data-model invariant that
every document listed for a term appears in `doc_lengths`. -/
theorem idf_nonneg (S : Snapshot) (t : String)
    (hn : ((S.invertedIndex.lookup t).getD []).length ≤ S.docLengths.length) :
    0 ≤ calculate_idf S t := by
  unfold calculate_idf
  apply Real.log_nonneg
  rw [idf_arg_eq, one_le_div (by positivity)]
  have hc : ((((S.invertedIndex.lookup t).getD []).length : Nat) : ℝ) ≤
      ((S.docLengths.length : Nat) : ℝ) := Nat.cast_le.mpr hn
  linarith

/-- With a positive length-normalisation denominator every summand is a
plain value and the whole score is the real sum of the per-term values. -/
theorem bm25_score_val (P : Params) (T : Snapshot) (query_terms : List String)
    (d : Int) (len : Nat)
    (hq : query_terms ≠ [])
    (hlen : T.docLengths.lookup d = some len)
    (hK : 0 < P.k1 * (1 - P.b + P.b * ((len : ℚ) / (T.avgDocLength + 1/1000000)))) :
    calculate_bm25_score P T query_terms d =
      Except.ok (NpV.val ((query_terms.map fun t =>
        calculate_idf T t *
          (((calculate_tf T t d : ℚ) * (P.k1 + 1) /
            ((calculate_tf T t d : ℚ) +
              P.k1 * (1 - P.b + P.b * ((len : ℚ) / (T.avgDocLength + 1/1000000)))) : ℚ) : ℝ)).sum)) := by
  unfold calculate_bm25_score
  rw [if_neg hq, hlen]
  exact congrArg Except.ok (npSum_map_val query_terms _ _ (fun t htq => by
    apply bm25_term_val
    have htf : (0:ℚ) ≤ (calculate_tf T t d : ℚ) := Nat.cast_nonneg _
    intro hcon
    nlinarith))

/-- C8 (amended). If two index snapshots differ only in that a term's
stored frequency for one fixed-length document is larger in the second,
then — for a non-negative `k1`, a positive length-normalisation part of
the BM25 denominator (`k1·(1 - b + b·len/avgLen') > 0`, which holds for
the classical range `0 < k1`, `0 ≤ b ≤ 1`, but can fail for `b > 1`, see
the counterexample), and under the data-model invariant that the term is
listed in at most `N` documents — the document's relevance for a query
containing the term under the second snapshot is at least its relevance
under the first, both scores being defined real values. -/
theorem spec_C8_tf_monotone (P : Params) (S : Snapshot) (t0 : String) (d : Int)
    (f2 : Nat) (query_terms : List String) (len : Nat)
    (hq : query_terms ≠ [])
    (ht0 : t0 ∈ query_terms)
    (hlen : S.docLengths.lookup d = some len)
    (hk : 0 ≤ P.k1)
    (hK : 0 < P.k1 * (1 - P.b + P.b * ((len : ℚ) / (S.avgDocLength + 1/1000000))))
    (hn : ((S.invertedIndex.lookup t0).getD []).length ≤ S.docLengths.length)
    (hf : calculate_tf S t0 d ≤ f2) :
    exceptScoreLe (calculate_bm25_score P S query_terms d)
      (calculate_bm25_score P
        ⟨updateFreq S.invertedIndex t0 d f2, S.docLengths, S.avgDocLength⟩
        query_terms d) := by
  have hlen2 : (Snapshot.mk (updateFreq S.invertedIndex t0 d f2) S.docLengths
      S.avgDocLength).docLengths.lookup d = some len := hlen
  have hK2 : 0 < P.k1 * (1 - P.b + P.b * ((len : ℚ) /
      ((Snapshot.mk (updateFreq S.invertedIndex t0 d f2) S.docLengths
        S.avgDocLength).avgDocLength + 1/1000000))) := hK
  rw [bm25_score_val P S query_terms d len hq hlen hK,
      bm25_score_val P _ query_terms d len hq hlen2 hK2]
  simp only [exceptScoreLe]
  apply List.sum_le_sum
  intro t htq
  by_cases ht : t = t0
  · subst ht
    rw [updateFreq_idf S t d f2 t]
    apply mul_le_mul_of_nonneg_left _ (idf_nonneg S t hn)
    rw [Rat.cast_le]
    apply bm25_frac_mono _ _ _ _ hk hK (Nat.cast_nonneg _)
    exact_mod_cast updateFreq_tf_self_le S t d f2 hf
  · rw [updateFreq_idf S t0 d f2 t, updateFreq_tf_other S t0 d f2 t ht]

/-- Witness for C8 at a concrete input: raising the frequency of "t" in
document 1 from 2 to 3 (default tunables) does not lower the score. -/
theorem spec_C8_witness :
    exceptScoreLe
      (calculate_bm25_score Pdef ⟨[("t", [(1, 2)])], [(1, 10)], 10⟩ ["t"] 1)
      (calculate_bm25_score Pdef
        ⟨updateFreq [("t", [(1, 2)])] "t" 1 3, [(1, 10)], 10⟩ ["t"] 1) :=
  spec_C8_tf_monotone Pdef ⟨[("t", [(1, 2)])], [(1, 10)], 10⟩ "t" 1 3 ["t"] 10
    (by decide) (by decide) (by decide) (by norm_num [Pdef])
    (by norm_num [Pdef]) (by decide) (by decide)

/-- Counterexample for C8 as stated ("for all non-negative tunables"):
with the non-negative tunables `k1 = 1`, `b = 2` and a document of length
0, raising the frequency of "t" in document 1 from 2 to 3 strictly lowers
the BM25 score (from `4·ln(4/3)` to `3·ln(4/3)`): for `b > 1` the
length-normalisation part of the denominator is negative and the
saturation factor becomes decreasing. -/
theorem spec_C8_counterexample :
    calculate_bm25_score ⟨1, 2, 1, 0, 1, 0⟩
        ⟨[("t", [(1, 2)])], [(1, 0)], 999999/1000000⟩ ["t"] 1 =
      Except.ok (NpV.val (Real.log (4/3) * 4)) ∧
    calculate_bm25_score ⟨1, 2, 1, 0, 1, 0⟩
        ⟨updateFreq [("t", [(1, 2)])] "t" 1 3, [(1, 0)], 999999/1000000⟩ ["t"] 1 =
      Except.ok (NpV.val (Real.log (4/3) * 3)) ∧
    Real.log (4/3) * 3 < Real.log (4/3) * 4 := by
  refine ⟨?_, ?_, ?_⟩
  · unfold calculate_bm25_score
    norm_num [calculate_tf, calculate_idf, bm25_term, npSum, NpV.add, List.lookup]
  · unfold calculate_bm25_score
    norm_num [calculate_tf, calculate_idf, bm25_term, npSum, NpV.add, updateFreq,
      List.lookup]
  · exact mul_lt_mul_of_pos_left (by norm_num) (Real.log_pos (by norm_num))

/-! Claims about the ranking orchestrator. -/

/-- Content of a successful collection loop: one entry per document, in
completion order, carrying that document's combined score. -/
theorem collectScores_ok (P : Params) (S : Snapshot) (prMap : List (PyNode × ℚ))
    (query_terms : List String) (perm : List Int) (l : List (Int × NpV ℝ))
    (h : collectScores P S prMap query_terms perm = Except.ok l) :
    l = perm.map fun d => (d, docCombinedValue P S prMap query_terms d) := by
  induction perm generalizing l with
  | nil =>
      simp only [collectScores] at h
      injection h with h2
      rw [← h2]
      rfl
  | cons d ds ih =>
      simp only [collectScores] at h
      cases hd : docCombined P S prMap query_terms d with
      | error e =>
          rw [hd] at h
          cases h
      | ok sc =>
          rw [hd] at h
          cases hr : collectScores P S prMap query_terms ds with
          | error e =>
              rw [hr] at h
              cases h
          | ok l2 =>
              rw [hr] at h
              simp only [Except.map] at h
              injection h with h2
              rw [← h2, List.map_cons, ih l2 hr]
              simp [docCombinedValue, hd]

/-- C1 (amended). Every successful ranking whose scores are NaN-free is
sorted in non-increasing order of combined score, and contains exactly one
entry per submitted document; the relative order of equal-score entries is
the task-completion order, not (as claimed) ascending document id — see
the counterexample. -/
theorem spec_C1_sorted_desc (P : Params) (S : Snapshot) (prMap : List (PyNode × ℚ))
    (query_terms : List String) (completion_order : List Int)
    (out : List (Int × NpV ℝ))
    (hok : rank_documents P S prMap query_terms completion_order = Except.ok out)
    (hval : ∀ p ∈ out, p.2 ≠ NpV.nan) :
    List.Sorted (fun a b : Int × NpV ℝ => NpV.le b.2 a.2) out ∧
    List.Perm (out.map Prod.fst) completion_order := by
  unfold rank_documents at hok
  cases hc : collectScores P S prMap query_terms completion_order with
  | error e =>
      rw [hc] at hok
      cases hok
  | ok l =>
      rw [hc] at hok
      simp only [Except.map] at hok
      injection hok with h2
      constructor
      · have hs : List.Sorted scoreGe (List.insertionSort scoreGe l) :=
          List.sorted_insertionSort scoreGe l
        rw [← h2]
        refine List.Pairwise.imp_of_mem ?_ hs
        intro a b ha hb hr
        have hva := hval a (h2 ▸ ha)
        have hvb := hval b (h2 ▸ hb)
        cases ca : a.2 with
        | nan => exact absurd ca hva
        | val x =>
            cases cb : b.2 with
            | nan => exact absurd cb hvb
            | val y =>
                have hr2 : npKey b.2 ≤ npKey a.2 := hr
                rw [ca, cb] at hr2
                simpa [npKey, NpV.le] using hr2
      · rw [← h2, collectScores_ok P S prMap query_terms completion_order l hc]
        have hfst := (List.perm_insertionSort scoreGe
          (completion_order.map fun d =>
            (d, docCombinedValue P S prMap query_terms d))).map Prod.fst
        rw [List.map_map] at hfst
        have hcomp : (Prod.fst ∘ fun d : Int =>
            (d, docCombinedValue P S prMap query_terms d)) = fun d => d := rfl
        rw [hcomp, List.map_id'] at hfst
        exact hfst

/-- Concrete evaluation: with the empty index of `S2docs`, every document
present with length 5 gets combined score 0 for the query `["t"]`. -/
theorem docCombined_S2docs_eval (d : Int)
    (hd : List.lookup d S2docs.docLengths = some 5) :
    docCombined Pdef S2docs [] ["t"] d = Except.ok (NpV.val 0) := by
  unfold docCombined calculate_bm25_plus_score
  rw [if_neg (by decide : ¬ (["t"] : List String) = []), hd]
  norm_num [calculate_tf, bm25_term, npSum, NpV.add, combine_scores, prLookup,
    Pdef, S2docs, List.lookup, Except.map]

/-- Concrete evaluation of a full ranking call with completion order
`[2, 1]`: the tied documents keep completion order. -/
theorem rank_eval_21 : rank_documents Pdef S2docs [] ["t"] [2, 1] =
    Except.ok [(2, NpV.val 0), (1, NpV.val 0)] := by
  have h2 := docCombined_S2docs_eval 2 (by decide)
  have h1 := docCombined_S2docs_eval 1 (by decide)
  unfold rank_documents
  rw [show collectScores Pdef S2docs [] ["t"] [2, 1] =
      Except.ok [(2, NpV.val 0), (1, NpV.val 0)] from by
    simp [collectScores, h1, h2, Except.map]]
  simp [Except.map, List.insertionSort, List.orderedInsert, scoreGe, npKey]

/-- Concrete evaluation of the same ranking call with completion order
`[1, 2]`. -/
theorem rank_eval_12 : rank_documents Pdef S2docs [] ["t"] [1, 2] =
    Except.ok [(1, NpV.val 0), (2, NpV.val 0)] := by
  have h2 := docCombined_S2docs_eval 2 (by decide)
  have h1 := docCombined_S2docs_eval 1 (by decide)
  unfold rank_documents
  rw [show collectScores Pdef S2docs [] ["t"] [1, 2] =
      Except.ok [(1, NpV.val 0), (2, NpV.val 0)] from by
    simp [collectScores, h1, h2, Except.map]]
  simp [Except.map, List.insertionSort, List.orderedInsert, scoreGe, npKey]

/-- Witness for C1 at a concrete input (completion order `[2, 1]`, both
scores 0): the output is sorted non-increasingly and is a permutation of
the submitted documents. -/
theorem spec_C1_witness :
    List.Sorted (fun a b : Int × NpV ℝ => NpV.le b.2 a.2)
        [(2, NpV.val 0), (1, NpV.val 0)] ∧
    List.Perm (([(2, NpV.val 0), (1, NpV.val 0)] :
        List (Int × NpV ℝ)).map Prod.fst) [2, 1] :=
  spec_C1_sorted_desc Pdef S2docs [] ["t"] [2, 1]
    [(2, NpV.val 0), (1, NpV.val 0)] rank_eval_21
    (by intro p hp; fin_cases hp <;> simp)

/-- Counterexample for C1 as stated: with completion order `[2, 1]` the
two documents tie at combined score 0 and the returned sequence lists
document 2 before document 1 — equal-score entries are not in ascending
order of document identifier. -/
theorem spec_C1_counterexample :
    rank_documents Pdef S2docs [] ["t"] [2, 1] =
      Except.ok [(2, NpV.val 0), (1, NpV.val 0)] ∧
    ¬ List.Pairwise (fun a b : Int × NpV ℝ => a.2 = b.2 → a.1 ≤ b.1)
        [(2, NpV.val 0), (1, NpV.val 0)] := by
  refine ⟨rank_eval_21, ?_⟩
  intro h
  rw [List.pairwise_cons] at h
  have h21 := h.1 (1, NpV.val 0) (by simp) rfl
  omega

/-- C2 (amended). Two executions of `rank_documents` on identical inputs
whose tasks complete in (possibly different) orders `p1 ~ p2` return
rankings that are permutations of each other — the same multiset of
(document, combined score) pairs — and the rankings are identical
sequences whenever no two entries tie on combined score. With ties the
sequences can differ, see the counterexample: byte-identical output is
not guaranteed. -/
theorem spec_C2_completion_order (P : Params) (S : Snapshot)
    (prMap : List (PyNode × ℚ)) (query_terms : List String)
    (p1 p2 : List Int) (o1 o2 : List (Int × NpV ℝ))
    (hperm : List.Perm p1 p2)
    (h1 : rank_documents P S prMap query_terms p1 = Except.ok o1)
    (h2 : rank_documents P S prMap query_terms p2 = Except.ok o2) :
    List.Perm o1 o2 ∧
    (List.Pairwise (fun a b : Int × NpV ℝ => npKey a.2 ≠ npKey b.2) o1 →
      o1 = o2) := by
  unfold rank_documents at h1 h2
  cases hc1 : collectScores P S prMap query_terms p1 with
  | error e =>
      rw [hc1] at h1
      cases h1
  | ok l1 =>
      cases hc2 : collectScores P S prMap query_terms p2 with
      | error e =>
          rw [hc2] at h2
          cases h2
      | ok l2 =>
          rw [hc1] at h1
          rw [hc2] at h2
          simp only [Except.map] at h1 h2
          injection h1 with e1
          injection h2 with e2
          have hll : List.Perm l1 l2 := by
            rw [collectScores_ok P S prMap query_terms p1 l1 hc1,
                collectScores_ok P S prMap query_terms p2 l2 hc2]
            exact hperm.map _
          have hperm12 : List.Perm o1 o2 := by
            rw [← e1, ← e2]
            exact ((List.perm_insertionSort scoreGe l1).trans hll).trans
              (List.perm_insertionSort scoreGe l2).symm
          refine ⟨hperm12, ?_⟩
          intro hdist
          have hs1 : List.Sorted scoreGe o1 := by
            rw [← e1]
            exact List.sorted_insertionSort scoreGe l1
          have hs2 : List.Sorted scoreGe o2 := by
            rw [← e2]
            exact List.sorted_insertionSort scoreGe l2
          have hdist2 : List.Pairwise
              (fun a b : Int × NpV ℝ => npKey a.2 ≠ npKey b.2) o2 :=
            (List.Perm.pairwise_iff (fun h => Ne.symm h) hperm12).mp hdist
          have hst1 : List.Sorted scoreGt o1 := by
            refine List.Pairwise.imp ?_ (List.Pairwise.and hs1 hdist)
            intro a b hab
            exact lt_of_le_of_ne hab.1 (Ne.symm hab.2)
          have hst2 : List.Sorted scoreGt o2 := by
            refine List.Pairwise.imp ?_ (List.Pairwise.and hs2 hdist2)
            intro a b hab
            exact lt_of_le_of_ne hab.1 (Ne.symm hab.2)
          exact List.eq_of_perm_of_sorted hperm12 hst1 hst2

/-- Witness for C2 at a concrete input: two runs with the same completion
order return the same ranking (and its permutation guarantee holds). -/
theorem spec_C2_witness :
    List.Perm ([(2, NpV.val 0), (1, NpV.val 0)] : List (Int × NpV ℝ))
        [(2, NpV.val 0), (1, NpV.val 0)] ∧
    (List.Pairwise (fun a b : Int × NpV ℝ => npKey a.2 ≠ npKey b.2)
        ([(2, NpV.val 0), (1, NpV.val 0)] : List (Int × NpV ℝ)) →
      ([(2, NpV.val 0), (1, NpV.val 0)] : List (Int × NpV ℝ)) =
        [(2, NpV.val 0), (1, NpV.val 0)]) :=
  spec_C2_completion_order Pdef S2docs [] ["t"] [2, 1] [2, 1] _ _
    (List.Perm.refl _) rank_eval_21 rank_eval_21

/-- Counterexample for C2 as stated: identical snapshot, graph, query and
weights, but completion orders `[1, 2]` versus `[2, 1]`, produce different
ordered results — the tied entries come back in completion order. -/
theorem spec_C2_counterexample :
    rank_documents Pdef S2docs [] ["t"] [1, 2] =
      Except.ok [(1, NpV.val 0), (2, NpV.val 0)] ∧
    rank_documents Pdef S2docs [] ["t"] [2, 1] =
      Except.ok [(2, NpV.val 0), (1, NpV.val 0)] ∧
    ([(1, NpV.val 0), (2, NpV.val 0)] : List (Int × NpV ℝ)) ≠
      [(2, NpV.val 0), (1, NpV.val 0)] := by
  refine ⟨rank_eval_12, rank_eval_21, ?_⟩
  simp

/-- C4 (amended). If the scoring task of any submitted document raises,
`rank_documents` does not return a ranking at all: `future.result()`
re-raises the task's exception, the collection loop aborts, and the whole
call fails — the faulting document is not scored as zero. -/
theorem spec_C4_task_fault_aborts (P : Params) (S : Snapshot)
    (prMap : List (PyNode × ℚ)) (query_terms : List String)
    (completion_order : List Int) (d : Int) (e : PyErr)
    (hd : d ∈ completion_order)
    (he : docCombined P S prMap query_terms d = Except.error e) :
    (rank_documents P S prMap query_terms completion_order).toOption = none := by
  suffices h : ∃ e2, collectScores P S prMap query_terms completion_order =
      Except.error e2 by
    obtain ⟨e2, h2⟩ := h
    unfold rank_documents
    rw [h2]
    rfl
  induction completion_order with
  | nil => cases hd
  | cons a ds ih =>
      cases ha : docCombined P S prMap query_terms a with
      | error e3 =>
          exact ⟨e3, by simp [collectScores, ha]⟩
      | ok sc =>
          rcases List.mem_cons.mp hd with rfl | hdl
          · rw [ha] at he
            cases he
          · obtain ⟨e2, h2⟩ := ih hdl
            refine ⟨e2, ?_⟩
            simp [collectScores, ha, h2, Except.map]

/-- Witness for C4: with the empty expanded query every task raises
`ValueError` (see C10), and the ranking call returns no result. -/
theorem spec_C4_witness :
    (rank_documents Pdef S2docs [] [] [1, 2]).toOption = none :=
  spec_C4_task_fault_aborts Pdef S2docs [] [] [1, 2] 1 PyErr.valueError
    (by decide) rfl

/-- Counterexample for C4 as stated: one faulting task (here: the empty
expanded query makes `np.vectorize` raise `ValueError` inside the task for
document 1) aborts the whole ranking call with that exception instead of
contributing zero relevance and returning a complete ranking. -/
theorem spec_C4_counterexample :
    rank_documents Pdef S2docs [] [] [1, 2] = Except.error PyErr.valueError := rfl
